import Mathlib

/-
Shallow embedding of the request-execution core of hubspot-api-go
(src/client: client.go, errors.go, ratelimiter.go, config.go, response.go,
request.go).

Modelling conventions, all noted where used:
 - Go `time.Duration` values are `Int` nanoseconds; `int64` arithmetic that
   can overflow is wrapped with `wrap64`.
 - `http.Header` is an association list; `Get` returns the first value for
   the key, or "" when absent.
 - `strconv.Atoi` is modelled by the executable `atoi` below (optional
   sign, decimal digits, error otherwise), including its int64 range
   error: a digit string whose value does not fit int64 parses to `none`,
   exactly as Atoi returns ErrRange.
 - Arithmetic on Go `time.Duration` (int64) wraps on overflow: the
   pre-jitter multiplication `2^attempt * initial`, the jitter addition
   `backoff += jitter`, and the Retry-After multiplication
   `Duration(seconds) * time.Second` are all passed through `wrap64`.
   `time.Until` (via `time.Time.Sub`) saturates instead of wrapping, so
   the date branch of the Retry-After parse goes through `satSub64`.
 - Lean's `/` on `Int` is floor division while Go's is truncated division;
   the two agree on every use below: the jitter bound divides a positive
   value, and the panic guard `backoff / 10 ≤ 0` has the same truth value
   under both conventions for every `backoff`.
 - `json.Unmarshal` of the HubSpot error envelope either succeeds or fails;
   the body is therefore modelled as `BodyBytes`: either `decoded` with the
   envelope fields, or `undecodable`.
 - `time.Parse(time.RFC1123, s)` and `time.Now()` are modelled as the
   oracle parameter `rfc1123 : String → Option Int` (Unix nanoseconds) and
   the parameter `now : Int`, so `time.Until t = t - now`.
 - `rand.Int63n n` (which panics when n ≤ 0) and `rand.Intn 2` are modelled
   by passing the drawn values as parameters `jit` (constrained by the
   hypotheses of theorems to the interval [0, n) that `Int63n` guarantees)
   and `addJitter`; the panic of `Int63n` on a non-positive bound is an
   `Option.none` result.
 - The network is modelled by a per-state script of wire outcomes; the
   HTTP middleware consumes one script entry per invocation.  The state
   also counts transport invocations, daily-gate checks and interval-token
   acquisitions so that admission-ordering claims are statable.
 - The x/time/rate token bucket's `Wait` blocks on time, which the model
   does not observe; it is modelled as always succeeding (no cancellation
   in the model) while counting the acquisition.  The backoff sleep in the
   retry loop is likewise a no-op on the model state.
-/

namespace HubSpotSDK

/-- Association-list model of Go `http.Header`; `Get` returns the first
value stored for the key or the empty string. -/
abbrev Headers := List (String × String)

def hGet (hs : Headers) (k : String) : String :=
  match hs.find? (fun p => p.1 == k) with
  | some p => p.2
  | none => ""

/-- Go map assignment `Headers[key] = value` on the association list. -/
def setHeader (hs : Headers) (k v : String) : Headers :=
  (k, v) :: hs.filter (fun p => p.1 != k)

def atoiCore : List Char → Nat → Option Nat
  | [], acc => some acc
  | c :: cs, acc => if c.isDigit then atoiCore cs (acc * 10 + (c.toNat - 48)) else none

/-- Executable model of Go `strconv.Atoi`: optional sign followed by at
least one decimal digit; anything else is a parse error (`none`), and a
value outside the int64 range [-2^63, 2^63 - 1] is the range error
(ErrRange), also `none`. -/
def atoi (s : String) : Option Int :=
  match s.data with
  | [] => none
  | '-' :: cs =>
    if cs = [] then none
    else (atoiCore cs 0).bind (fun n => if (n : Int) ≤ 2 ^ 63 then some (-(n : Int)) else none)
  | '+' :: cs =>
    if cs = [] then none
    else (atoiCore cs 0).bind (fun n => if (n : Int) ≤ 2 ^ 63 - 1 then some (n : Int) else none)
  | cs => (atoiCore cs 0).bind (fun n => if (n : Int) ≤ 2 ^ 63 - 1 then some (n : Int) else none)

/-- Two's-complement wraparound of Go int64 arithmetic (`time.Duration`
addition and multiplication overflow deterministically in Go). -/
def wrap64 (x : Int) : Int :=
  (x + 2 ^ 63) % 2 ^ 64 - 2 ^ 63

/-- Saturation of Go `time.Time.Sub` (hence `time.Until`): a difference
outside the int64 Duration range returns the maximum or minimum
Duration. -/
def satSub64 (x : Int) : Int :=
  if 2 ^ 63 - 1 < x then 2 ^ 63 - 1
  else if x < -(2 ^ 63) then -(2 ^ 63)
  else x

/-- The JSON error envelope that `ParseHubSpotError` tries to decode
(src/client/errors.go, the anonymous struct). -/
structure Envelope where
  statusStr : String := ""
  message : String := ""
  errorType : String := ""
  category : String := ""
  policyName : String := ""
  correlationId : String := ""
deriving DecidableEq

/-- Response body bytes, abstracted to whether `json.Unmarshal` into the
envelope succeeds. -/
inductive BodyBytes where
  | undecodable (raw : String)
  | decoded (env : Envelope) (raw : String)
deriving DecidableEq

def BodyBytes.raw : BodyBytes → String
  | .undecodable r => r
  | .decoded _ r => r

/-- src/client/errors.go HubSpotError.  `retryAfter` is a Go
`time.Duration` in nanoseconds. -/
structure HubSpotError where
  status : Int := 0
  message : String := ""
  errorType : String := ""
  category : String := ""
  policyName : String := ""
  correlationId : String := ""
  isRetryable : Bool := false
  retryAfter : Int := 0
  rawBody : String := ""
deriving DecidableEq

/-- src/client/errors.go isRetryableStatus. -/
def isRetryableStatus (statusCode : Int) (policyName : String) : Bool :=
  if statusCode = 429 then policyName != "DAILY"
  else if statusCode = 500 ∨ statusCode = 502 ∨ statusCode = 503 ∨ statusCode = 504 then true
  else false

/-- The Retry-After parsing block of ParseHubSpotError: a numeric header
is seconds, multiplied into nanoseconds by `Duration(seconds) * Second`
(int64 multiplication, wraps); otherwise an RFC1123 date gives
`time.Until t`, i.e. `t - now` saturated to the Duration range; an absent
or unparsable header leaves the zero value. -/
def parseRetryAfterNs (headers : Headers) (now : Int)
    (rfc1123 : String → Option Int) : Int :=
  let v := hGet headers "Retry-After"
  if v = "" then 0
  else
    match atoi v with
    | some seconds => wrap64 (seconds * 1000000000)
    | none =>
      match rfc1123 v with
      | some t => satSub64 (t - now)
      | none => 0

/-- src/client/errors.go ParseHubSpotError. -/
def ParseHubSpotError (statusCode : Int) (body : BodyBytes) (headers : Headers)
    (now : Int) (rfc1123 : String → Option Int) : HubSpotError :=
  let retryAfter := parseRetryAfterNs headers now rfc1123
  let base : HubSpotError :=
    { status := statusCode, rawBody := body.raw, retryAfter := retryAfter }
  let withEnv :=
    match body with
    | .undecodable _ => base
    | .decoded e _ =>
      { base with
        message := e.message, errorType := e.errorType, category := e.category,
        policyName := e.policyName, correlationId := e.correlationId }
  { withEnv with isRetryable := isRetryableStatus statusCode withEnv.policyName }

/-- src/client/response.go RateLimitInfo (reset-time fields are never read
by the client core and are omitted). -/
structure RateLimitInfo where
  max : Int := 0
  remaining : Int := 0
  dailyLimit : Int := 0
  dailyRemaining : Int := 0
  intervalMs : Int := 0
deriving DecidableEq

/-- One header field of ExtractRateLimitInfo: Go's
`if s != "" { if v, err := strconv.Atoi(s); err == nil { field = v } }`. -/
def parseHeaderInt (hs : Headers) (k : String) (cur : Int) : Int :=
  let s := hGet hs k
  if s = "" then cur
  else
    match atoi s with
    | some n => n
    | none => cur

/-- src/client/errors.go ExtractRateLimitInfo. -/
def ExtractRateLimitInfo (hs : Headers) : RateLimitInfo :=
  let info : RateLimitInfo := { intervalMs := 10000 }
  let info := { info with max := parseHeaderInt hs "X-HubSpot-RateLimit-Max" info.max }
  let info := { info with remaining := parseHeaderInt hs "X-HubSpot-RateLimit-Remaining" info.remaining }
  let info := { info with intervalMs := parseHeaderInt hs "X-HubSpot-RateLimit-Interval-Milliseconds" info.intervalMs }
  let info := { info with dailyLimit := parseHeaderInt hs "X-HubSpot-RateLimit-Daily" info.dailyLimit }
  let info := { info with dailyRemaining := parseHeaderInt hs "X-HubSpot-RateLimit-Daily-Remaining" info.dailyRemaining }
  info

/-- src/client/response.go Response. -/
structure Response where
  statusCode : Int
  body : BodyBytes
  headers : Headers
  rateLimit : RateLimitInfo := {}
  hubSpotError : Option HubSpotError := none
deriving DecidableEq

/-- src/client/response.go NewResponse. -/
def NewResponse (statusCode : Int) (body : BodyBytes) (headers : Headers) : Response :=
  { statusCode := statusCode, body := body, headers := headers,
    rateLimit := { intervalMs := 10000 } }

/-- src/client/ratelimiter.go RateLimiter.  The x/time/rate bucket is kept
as its construction parameter; `dailyResetTime` is never read by the
middleware and is omitted. -/
structure RateLimiter where
  maxBurst : Int := 0
  dailyLimit : Int := 0
  dailyRemaining : Int := 0
deriving DecidableEq

/-- src/client/ratelimiter.go NewRateLimiter: daily fields are hardcoded to
250000. -/
def NewRateLimiter (maxBurst : Int) : RateLimiter :=
  { maxBurst := maxBurst, dailyLimit := 250000, dailyRemaining := 250000 }

/-- src/client/ratelimiter.go CheckDailyLimit. -/
def CheckDailyLimit (rl : RateLimiter) : Bool :=
  decide (rl.dailyRemaining > 0)

/-- src/client/ratelimiter.go UpdateFromResponse. -/
def UpdateFromResponse (rl : RateLimiter) (resp : Response) : RateLimiter :=
  { rl with dailyRemaining := resp.rateLimit.dailyRemaining,
            dailyLimit := resp.rateLimit.dailyLimit }

/-- src/client/config.go RateLimitConfig. -/
structure RateLimitConfig where
  maxBurst : Int
  dailyLimit : Int
  enabled : Bool
deriving DecidableEq

/-- src/client/config.go RetryConfig (durations in nanoseconds). -/
structure RetryConfig where
  maxAttempts : Int
  initialBackoff : Int
  maxBackoff : Int
  enabled : Bool
deriving DecidableEq

/-- src/client/config.go Config. -/
structure Config where
  accessToken : String
  baseURL : String
  timeout : Int
  rateLimit : RateLimitConfig
  retry : RetryConfig
deriving DecidableEq

/-- src/client/config.go NewConfig. -/
def NewConfig : Config :=
  { accessToken := ""
    baseURL := "https://api.hubapi.com"
    timeout := 30000000000
    rateLimit := { maxBurst := 100, dailyLimit := 250000, enabled := true }
    retry := { maxAttempts := 3, initialBackoff := 1000000000,
               maxBackoff := 30000000000, enabled := true } }

/-- Functional option; every option in src/client/config.go returns a nil
error, so the error component is dropped. -/
abbrev ClientOption := Config → Config

def WithAccessToken (token : String) : ClientOption :=
  fun cfg => { cfg with accessToken := token }

def WithBaseURL (url : String) : ClientOption :=
  fun cfg => { cfg with baseURL := url }

def WithRateLimitMaxBurst (burst : Int) : ClientOption :=
  fun cfg => { cfg with rateLimit := { cfg.rateLimit with maxBurst := burst } }

def WithRateLimitDailyLimit (limit : Int) : ClientOption :=
  fun cfg => { cfg with rateLimit := { cfg.rateLimit with dailyLimit := limit } }

def WithRateLimitEnabled (enabled : Bool) : ClientOption :=
  fun cfg => { cfg with rateLimit := { cfg.rateLimit with enabled := enabled } }

def WithRetryMaxAttempts (attempts : Int) : ClientOption :=
  fun cfg => { cfg with retry := { cfg.retry with maxAttempts := attempts } }

def WithRetryEnabled (enabled : Bool) : ClientOption :=
  fun cfg => { cfg with retry := { cfg.retry with enabled := enabled } }

/-- src/client/client.go Client (httpClient and logger carry no state the
middleware reads). -/
structure Client where
  config : Config
  rateLimiter : RateLimiter
deriving DecidableEq

/-- src/client/client.go NewClient: applies the options to NewConfig and
builds the limiter from `cfg.RateLimit.MaxBurst` only. -/
def NewClient (opts : List ClientOption) : Client :=
  let cfg := opts.foldl (fun c o => o c) NewConfig
  { config := cfg, rateLimiter := NewRateLimiter cfg.rateLimit.maxBurst }

/-- src/client/client.go calculateBackoffDuration.  `attempt` is the loop
index (so `math.Pow 2 attempt` is the exact integer `2 ^ attempt` whenever
`attempt ≤ 62`); `jit` is the value drawn by `rand.Int63n (backoff / 10)`
and `addJitter` the outcome of `rand.Intn 2 == 0`.  `rand.Int63n` panics
when its bound is not positive, modelled as `none`.  Both the pre-jitter
multiplication and the jitter addition/subtraction are int64 Duration
arithmetic and therefore wrap. -/
def calculateBackoffDuration (attempt : Nat) (retryAfter : Int)
    (cfg : RetryConfig) (jit : Int) (addJitter : Bool) : Option Int :=
  if 0 < retryAfter then some retryAfter
  else
    let backoff := wrap64 (2 ^ attempt * cfg.initialBackoff)
    if backoff / 10 ≤ 0 then none
    else
      let b := wrap64 (if addJitter then backoff + jit else backoff - jit)
      some (if cfg.maxBackoff < b then cfg.maxBackoff else b)

/-- src/client/request.go Request (body, query parameters and the context
handle carry no information the middleware logic reads in the model). -/
structure Request where
  method : String := "GET"
  path : String := ""
  resourceType : String := ""
  retryCount : Int := 0
  headers : Headers := []
deriving DecidableEq

/-- A Go `error` as the middleware sees it: either a `*HubSpotError` (the
only type the retry loop inspects) or any other error value. -/
inductive GoError where
  | hs (e : HubSpotError)
  | generic (msg : String)
deriving DecidableEq

/-- One network interaction as scripted for the model: either the
`http.Client.Do` / body-read failure path, or a completed round trip. -/
inductive WireOutcome where
  | netError (msg : String)
  | httpResult (statusCode : Int) (body : BodyBytes) (headers : Headers)
deriving DecidableEq

/-- Instrumented execution state threaded through the middleware chain:
the shared rate limiter, the remaining network script, and counters for
transport invocations, daily-gate checks and interval-token acquisitions. -/
structure SimState where
  limiter : RateLimiter
  script : List WireOutcome := []
  transportCalls : Nat := 0
  dailyChecks : Nat := 0
  tokenWaits : Nat := 0
deriving DecidableEq

/-- src/client/client.go Handler. -/
abbrev SimHandler := Request → SimState → SimState × (Option Response × Option GoError)

/-- The per-round-trip part of src/client/client.go httpMiddleware: build
the Response wrapper, extract rate-limit telemetry, and on status ≥ 400
attach and return the classified error. -/
def httpRoundTrip (now : Int) (rfc1123 : String → Option Int)
    (o : WireOutcome) : Option Response × Option GoError :=
  match o with
  | .netError msg => (none, some (GoError.generic msg))
  | .httpResult status body headers =>
    let resp := { NewResponse status body headers with rateLimit := ExtractRateLimitInfo headers }
    if status ≥ 400 then
      let e := ParseHubSpotError status body headers now rfc1123
      (some { resp with hubSpotError := some e }, some (GoError.hs e))
    else
      (some resp, none)

/-- src/client/client.go httpMiddleware over the scripted network: each
invocation consumes one script entry (an exhausted script behaves as a
transport failure). -/
def httpMiddleware (now : Int) (rfc1123 : String → Option Int) : SimHandler :=
  fun _req st =>
    match st.script with
    | [] =>
      ({ st with transportCalls := st.transportCalls + 1 },
       (none, some (GoError.generic "HTTP request failed")))
    | o :: rest =>
      ({ st with script := rest, transportCalls := st.transportCalls + 1 },
       httpRoundTrip now rfc1123 o)

/-- The synthetic error literal of src/client/client.go
wrapRateLimitMiddleware. -/
def dailyLimitError : HubSpotError :=
  { status := 429, message := "Daily API limit exceeded", errorType := "RATE_LIMIT",
    policyName := "DAILY", isRetryable := false }

/-- src/client/client.go wrapRateLimitMiddleware.  `rl.Wait` is modelled as
a counted, always-successful token acquisition (see the header comment);
when admitted, the call records one daily-gate check and one token
acquisition before invoking `next`, and afterwards feeds the limiter from
the response exactly when the response is non-nil. -/
def wrapRateLimitMiddleware (cfg : Config) (next : SimHandler) : SimHandler :=
  fun req st =>
    if cfg.rateLimit.enabled then
      if CheckDailyLimit st.limiter then
        match next req { st with dailyChecks := st.dailyChecks + 1,
                                 tokenWaits := st.tokenWaits + 1 } with
        | (st1, (some resp, err)) =>
          ({ st1 with limiter := UpdateFromResponse st1.limiter resp }, (some resp, err))
        | (st1, (none, err)) => (st1, (none, err))
      else
        ({ st with dailyChecks := st.dailyChecks + 1 },
         (none, some (GoError.hs dailyLimitError)))
    else next req st

/-- The attempt loop of src/client/client.go wrapRetryMiddleware, by fuel
on the remaining attempts (`fuel + attempt = cfg.Retry.MaxAttempts`).  The
backoff sleep between retryable attempts is a no-op on the model state. -/
def retryLoop (next : SimHandler) (req : Request) :
    Nat → Int → Option Response → Option GoError → SimState →
    SimState × (Option Response × Option GoError)
  | 0, _, lastResp, lastErr, st => (st, (lastResp, lastErr))
  | Nat.succ fuel, attempt, _, _, st =>
    match next { req with retryCount := attempt } st with
    | (st1, (resp, none)) => (st1, (resp, none))
    | (st1, (resp, some (GoError.generic m))) => (st1, (resp, some (GoError.generic m)))
    | (st1, (resp, some (GoError.hs e))) =>
      if e.isRetryable then
        retryLoop next req fuel (attempt + 1) resp (some (GoError.hs e)) st1
      else
        (st1, (resp, some (GoError.hs e)))

/-- src/client/client.go wrapRetryMiddleware. -/
def wrapRetryMiddleware (cfg : Config) (next : SimHandler) : SimHandler :=
  fun req st =>
    if cfg.retry.enabled then
      retryLoop next req cfg.retry.maxAttempts.toNat 0 none none st
    else next req st

/-- src/client/client.go wrapAuthMiddleware. -/
def wrapAuthMiddleware (cfg : Config) (next : SimHandler) : SimHandler :=
  fun req st =>
    let req' :=
      if cfg.accessToken ≠ "" then
        { req with headers := setHeader req.headers "Authorization" ("Bearer " ++ cfg.accessToken) }
      else req
    next req' st

/-- src/client/client.go buildChain: http innermost, wrapped by retry, then
rate limit, then auth. -/
def buildChain (cfg : Config) (now : Int) (rfc1123 : String → Option Int) : SimHandler :=
  wrapAuthMiddleware cfg
    (wrapRateLimitMiddleware cfg
      (wrapRetryMiddleware cfg
        (httpMiddleware now rfc1123)))

/-! Fixtures shared by the theorems below: a date oracle that never
parses, scripted wire outcomes mirroring the repository's own test
fixtures, and small helper lemmas about the embedded definitions. -/

def rfcNone : String → Option Int := fun _ => none

/-- A date oracle for the counterexample below: parses exactly one RFC1123
string to the Unix epoch. -/
def pastDateParse : String → Option Int :=
  fun s => if s = "Mon, 01 Jan 2024 00:00:00 GMT" then some 0 else none

def body500 : BodyBytes := .decoded { message := "Server error" } "srv"

def body400 : BodyBytes := .decoded { message := "Bad request" } "bad"

def err500Outcome : WireOutcome := .httpResult 500 body500 []

def err400Outcome : WireOutcome := .httpResult 400 body400 []

def ok200Outcome : WireOutcome := .httpResult 200 (.undecodable "ok") []

theorem ParseHubSpotError_status (s : Int) (b : BodyBytes) (hs : Headers)
    (now : Int) (rfc : String → Option Int) :
    (ParseHubSpotError s b hs now rfc).status = s := by
  cases b <;> rfl

theorem ParseHubSpotError_retryAfter (s : Int) (b : BodyBytes) (hs : Headers)
    (now : Int) (rfc : String → Option Int) :
    (ParseHubSpotError s b hs now rfc).retryAfter = parseRetryAfterNs hs now rfc := by
  cases b <;> rfl

theorem ParseHubSpotError_isRetryable (s : Int) (b : BodyBytes) (hs : Headers)
    (now : Int) (rfc : String → Option Int) :
    (ParseHubSpotError s b hs now rfc).isRetryable =
      isRetryableStatus s (ParseHubSpotError s b hs now rfc).policyName := by
  cases b <;> rfl

theorem wrap64_eq_of_range (x : Int) (h1 : -(2 ^ 63) ≤ x) (h2 : x < 2 ^ 63) :
    wrap64 x = x := by
  unfold wrap64
  omega

theorem wrap64_range (x : Int) : -(2 ^ 63) ≤ wrap64 x ∧ wrap64 x < 2 ^ 63 := by
  unfold wrap64
  omega

theorem satSub64_eq_of_range (x : Int) (h1 : -(2 ^ 63) ≤ x) (h2 : x ≤ 2 ^ 63 - 1) :
    satSub64 x = x := by
  unfold satSub64
  rw [if_neg (by omega), if_neg (by omega)]

theorem calculateBackoff_jitter (attempt : Nat) (retryAfter : Int) (cfg : RetryConfig)
    (jit : Int) (sgn : Bool)
    (h0 : retryAfter ≤ 0)
    (hb : 10 ≤ wrap64 (2 ^ attempt * cfg.initialBackoff))
    (hj0 : 0 ≤ jit)
    (hj1 : jit < wrap64 (2 ^ attempt * cfg.initialBackoff) / 10)
    (hov : wrap64 (2 ^ attempt * cfg.initialBackoff) + jit < 2 ^ 63) :
    calculateBackoffDuration attempt retryAfter cfg jit sgn =
      some (if cfg.maxBackoff < (if sgn then wrap64 (2 ^ attempt * cfg.initialBackoff) + jit
                                 else wrap64 (2 ^ attempt * cfg.initialBackoff) - jit)
            then cfg.maxBackoff
            else if sgn then wrap64 (2 ^ attempt * cfg.initialBackoff) + jit
                 else wrap64 (2 ^ attempt * cfg.initialBackoff) - jit) ∧
    9 * wrap64 (2 ^ attempt * cfg.initialBackoff) ≤
      10 * (if sgn then wrap64 (2 ^ attempt * cfg.initialBackoff) + jit
            else wrap64 (2 ^ attempt * cfg.initialBackoff) - jit) ∧
    10 * (if sgn then wrap64 (2 ^ attempt * cfg.initialBackoff) + jit
          else wrap64 (2 ^ attempt * cfg.initialBackoff) - jit) ≤
      11 * wrap64 (2 ^ attempt * cfg.initialBackoff) := by
  obtain ⟨hr1, hr2⟩ := wrap64_range (2 ^ attempt * cfg.initialBackoff)
  have hid : wrap64 (if sgn then wrap64 (2 ^ attempt * cfg.initialBackoff) + jit
                     else wrap64 (2 ^ attempt * cfg.initialBackoff) - jit) =
      (if sgn then wrap64 (2 ^ attempt * cfg.initialBackoff) + jit
       else wrap64 (2 ^ attempt * cfg.initialBackoff) - jit) := by
    apply wrap64_eq_of_range <;>
      cases sgn <;> simp only [if_true, if_false, Bool.false_eq_true] <;> omega
  refine ⟨?_, ?_, ?_⟩
  · simp only [calculateBackoffDuration]
    rw [if_neg (by omega), if_neg (by omega), hid]
  · cases sgn <;> simp only [if_true, if_false, Bool.false_eq_true] <;> omega
  · cases sgn <;> simp only [if_true, if_false, Bool.false_eq_true] <;> omega

/-- The default retry configuration of NewConfig: initial backoff 1s, max
backoff 30s. -/
def retryCfg1s : RetryConfig :=
  { maxAttempts := 3, initialBackoff := 1000000000, maxBackoff := 30000000000, enabled := true }

/-- C2: for every status code and policy-name the classifier's retryable
flag equals the fixed table (429 retryable iff the policy is not "DAILY";
500, 502, 503, 504 always retryable; everything else not), and the flag
computed by ParseHubSpotError is a function of the status code and the
decoded policy-name only, never of the message text. -/
theorem classifier_retryable_table :
    (∀ (s : Int) (p : String),
      isRetryableStatus s p = true ↔
        ((s = 429 ∧ p ≠ "DAILY") ∨ s = 500 ∨ s = 502 ∨ s = 503 ∨ s = 504)) ∧
    (∀ (s : Int) (b : BodyBytes) (hs : Headers) (now : Int) (rfc : String → Option Int),
      (ParseHubSpotError s b hs now rfc).isRetryable =
        isRetryableStatus s (ParseHubSpotError s b hs now rfc).policyName) := by
  constructor
  · intro s p
    unfold isRetryableStatus
    split_ifs with h1 h2
    · simp [h1, bne_iff_ne]
    · simp [h1, h2]
    · simp [h1]
      push_neg at h2
      simp [h2.1, h2.2.1, h2.2.2.1, h2.2.2.2]
  · intro s b hs now rfc
    exact ParseHubSpotError_isRetryable s b hs now rfc

/-- C4 records a code bug: NewClient builds the limiter via
`NewRateLimiter cfg.RateLimit.MaxBurst` and never consults
`cfg.RateLimit.DailyLimit`, so a client constructed with the daily-limit
option set to 500000 stores that value in its config yet seeds the limiter
at the hardcoded 250000 — contradicting both the spec and the evident
intent of the WithRateLimitDailyLimit option. -/
theorem daily_limit_override_ignored_bug :
    (NewClient [WithRateLimitDailyLimit 500000]).config.rateLimit.dailyLimit = 500000 ∧
    (NewClient [WithRateLimitDailyLimit 500000]).rateLimiter.dailyLimit = 250000 ∧
    (NewClient [WithRateLimitDailyLimit 500000]).rateLimiter.dailyRemaining = 250000 := by
  decide

/-- C5 counterexample: the claim promises a jittered backoff for every
retry configuration, but with no wait hint and initial backoff 5ns the
pre-jitter backoff is 5, `backoff / 10` is 0, and `rand.Int63n 0` panics
(modelled as `none`) — no backoff value in [4.5ns, 5.5ns] is ever
produced. -/
theorem backoff_small_positive_counterexample :
    calculateBackoffDuration 0 0
      { maxAttempts := 3, initialBackoff := 5, maxBackoff := 30000000000, enabled := true }
      0 true = none := by
  decide

/-- C5 amended: a positive wait hint is returned verbatim (no jitter, no
cap, independent of the attempt index); otherwise, provided the wrapped
pre-jitter backoff `initial * 2 ^ attempt` is at least 10ns (so that
`rand.Int63n (backoff / 10)` does not panic) and the jittered sum
`backoff + jit` stays below 2^63 (so that the int64 addition does not
wrap), the result is the pre-jitter backoff perturbed by the drawn jitter
(which `Int63n` bounds by backoff / 10, i.e. under 10 percent) in the
drawn direction and then capped at the configured maximum; in particular
attempt 0 with initial 1s yields a value in [0.9s, 1.1s], and attempt 10
with initial 1s and max 30s yields exactly the 30s cap.  When the
jittered addition overflows int64 the program instead produces the
wrapped (negative, uncapped) duration, which the definition models via
`wrap64`. -/
theorem backoff_computation :
    (∀ (attempt : Nat) (retryAfter : Int) (cfg : RetryConfig) (jit : Int) (sgn : Bool),
      0 < retryAfter →
      calculateBackoffDuration attempt retryAfter cfg jit sgn = some retryAfter) ∧
    (∀ (attempt : Nat) (retryAfter : Int) (cfg : RetryConfig) (jit : Int) (sgn : Bool),
      retryAfter ≤ 0 →
      10 ≤ wrap64 (2 ^ attempt * cfg.initialBackoff) →
      0 ≤ jit →
      jit < wrap64 (2 ^ attempt * cfg.initialBackoff) / 10 →
      wrap64 (2 ^ attempt * cfg.initialBackoff) + jit < 2 ^ 63 →
      calculateBackoffDuration attempt retryAfter cfg jit sgn =
        some (if cfg.maxBackoff < (if sgn then wrap64 (2 ^ attempt * cfg.initialBackoff) + jit
                                   else wrap64 (2 ^ attempt * cfg.initialBackoff) - jit)
              then cfg.maxBackoff
              else if sgn then wrap64 (2 ^ attempt * cfg.initialBackoff) + jit
                   else wrap64 (2 ^ attempt * cfg.initialBackoff) - jit) ∧
      9 * wrap64 (2 ^ attempt * cfg.initialBackoff) ≤
        10 * (if sgn then wrap64 (2 ^ attempt * cfg.initialBackoff) + jit
              else wrap64 (2 ^ attempt * cfg.initialBackoff) - jit) ∧
      10 * (if sgn then wrap64 (2 ^ attempt * cfg.initialBackoff) + jit
            else wrap64 (2 ^ attempt * cfg.initialBackoff) - jit) ≤
        11 * wrap64 (2 ^ attempt * cfg.initialBackoff)) ∧
    (∀ (jit : Int) (sgn : Bool), 0 ≤ jit → jit < 100000000 →
      ∃ d, calculateBackoffDuration 0 0 retryCfg1s jit sgn = some d ∧
        900000000 ≤ d ∧ d ≤ 1100000000) ∧
    (∀ (jit : Int) (sgn : Bool), 0 ≤ jit → jit < 102400000000 →
      calculateBackoffDuration 10 0 retryCfg1s jit sgn = some 30000000000) := by
  have hb0 : wrap64 (2 ^ (0 : Nat) * retryCfg1s.initialBackoff) = 1000000000 := by decide
  have hb10 : wrap64 (2 ^ (10 : Nat) * retryCfg1s.initialBackoff) = 1024000000000 := by decide
  refine ⟨?_, ?_, ?_, ?_⟩
  · intro attempt ra cfg jit sgn h
    simp [calculateBackoffDuration, h]
  · intro attempt ra cfg jit sgn h0 hb hj0 hj1 hov
    exact calculateBackoff_jitter attempt ra cfg jit sgn h0 hb hj0 hj1 hov
  · intro jit sgn hj0 hj1
    obtain ⟨heq, hlo, hhi⟩ :=
      calculateBackoff_jitter 0 0 retryCfg1s jit sgn (by omega)
        (by rw [hb0]; omega) hj0 (by rw [hb0]; omega) (by rw [hb0]; omega)
    rw [hb0] at heq hlo hhi
    have hmax : retryCfg1s.maxBackoff = 30000000000 := rfl
    rw [hmax] at heq
    rw [if_neg (by omega)] at heq
    exact ⟨_, heq, by omega, by omega⟩
  · intro jit sgn hj0 hj1
    obtain ⟨heq, hlo, hhi⟩ :=
      calculateBackoff_jitter 10 0 retryCfg1s jit sgn (by omega)
        (by rw [hb10]; omega) hj0 (by rw [hb10]; omega) (by rw [hb10]; omega)
    rw [hb10] at heq hlo hhi
    have hmax : retryCfg1s.maxBackoff = 30000000000 := rfl
    rw [hmax] at heq
    rw [if_pos (by omega)] at heq
    exact heq

/-- Witness for backoff_computation: a 5s wait hint at attempt 4 is used
verbatim. -/
theorem backoff_computation_witness :
    calculateBackoffDuration 4 5000000000 retryCfg1s 0 true = some 5000000000 :=
  backoff_computation.1 4 5000000000 retryCfg1s 0 true (by decide)

/-- C6 counterexample: with initial backoff 0 the pre-jitter backoff is
zero, and the computation does not return the floored value 0 — it panics
in `rand.Int63n` (modelled as `none`). -/
theorem backoff_zero_initial_counterexample :
    calculateBackoffDuration 0 0
      { maxAttempts := 3, initialBackoff := 0, maxBackoff := 30000000000, enabled := true }
      0 true = none ∧
    calculateBackoffDuration 0 0
      { maxAttempts := 3, initialBackoff := 0, maxBackoff := 30000000000, enabled := true }
      0 true ≠ some 0 := by
  decide

/-- C6 amended: when there is no positive wait hint and the wrapped
pre-jitter backoff `initial * 2 ^ attempt` is zero or negative, the
computation does not terminate normally with zero — `backoff / 10` is not
positive and `rand.Int63n` panics (modelled as `none`). -/
theorem backoff_nonpos_panics (attempt : Nat) (retryAfter : Int) (cfg : RetryConfig)
    (jit : Int) (sgn : Bool)
    (h0 : retryAfter ≤ 0)
    (hb : wrap64 (2 ^ attempt * cfg.initialBackoff) ≤ 0) :
    calculateBackoffDuration attempt retryAfter cfg jit sgn = none := by
  simp only [calculateBackoffDuration]
  rw [if_neg (by omega), if_pos (by omega)]

/-- Witness for backoff_nonpos_panics at a negative initial backoff. -/
theorem backoff_nonpos_panics_witness :
    calculateBackoffDuration 0 0
      { maxAttempts := 3, initialBackoff := -5, maxBackoff := 30000000000, enabled := true }
      0 true = none :=
  backoff_nonpos_panics 0 0
    { maxAttempts := 3, initialBackoff := -5, maxBackoff := 30000000000, enabled := true }
    0 true (by decide) (by decide)

/-- C7 counterexample: a Retry-After HTTP-date one second in the past
(now = 1s, date = 0s in Unix nanoseconds) yields a wait hint of -1s — the
code stores `time.Until t` without clamping, so the hint is negative, not
zero. -/
theorem retry_after_past_date_counterexample :
    (ParseHubSpotError 429 (.undecodable "") [("Retry-After", "Mon, 01 Jan 2024 00:00:00 GMT")]
      1000000000 pastDateParse).retryAfter = -1000000000 ∧
    (ParseHubSpotError 429 (.undecodable "") [("Retry-After", "Mon, 01 Jan 2024 00:00:00 GMT")]
      1000000000 pastDateParse).retryAfter < 0 := by
  decide

/-- C7 amended: a numeric Retry-After header (one strconv.Atoi accepts,
so its value fits int64) yields the wrapped int64 product
`seconds * 1e9` — exactly that many seconds whenever the product does not
overflow int64; a non-numeric header that parses as an HTTP-date yields
`time.Until`, i.e. `date - now` saturated to the int64 Duration range but
never clamped at zero, so a past date yields a negative hint rather than
zero. -/
theorem retry_after_hint_parsing :
    (∀ (s : Int) (b : BodyBytes) (hs : Headers) (now : Int) (rfc : String → Option Int) (n : Int),
      atoi (hGet hs "Retry-After") = some n →
      (ParseHubSpotError s b hs now rfc).retryAfter = wrap64 (n * 1000000000)) ∧
    (∀ (s : Int) (b : BodyBytes) (hs : Headers) (now : Int) (rfc : String → Option Int) (n : Int),
      atoi (hGet hs "Retry-After") = some n →
      -(2 ^ 63) ≤ n * 1000000000 → n * 1000000000 < 2 ^ 63 →
      (ParseHubSpotError s b hs now rfc).retryAfter = n * 1000000000) ∧
    (∀ (s : Int) (b : BodyBytes) (hs : Headers) (now : Int) (rfc : String → Option Int) (t : Int),
      hGet hs "Retry-After" ≠ "" →
      atoi (hGet hs "Retry-After") = none →
      rfc (hGet hs "Retry-After") = some t →
      (ParseHubSpotError s b hs now rfc).retryAfter = satSub64 (t - now)) ∧
    (∀ (s : Int) (b : BodyBytes) (hs : Headers) (now : Int) (rfc : String → Option Int) (t : Int),
      hGet hs "Retry-After" ≠ "" →
      atoi (hGet hs "Retry-After") = none →
      rfc (hGet hs "Retry-After") = some t →
      -(2 ^ 63) ≤ t - now → t - now ≤ 2 ^ 63 - 1 →
      (ParseHubSpotError s b hs now rfc).retryAfter = t - now) := by
  have hnum : ∀ (s : Int) (b : BodyBytes) (hs : Headers) (now : Int)
      (rfc : String → Option Int) (n : Int),
      atoi (hGet hs "Retry-After") = some n →
      (ParseHubSpotError s b hs now rfc).retryAfter = wrap64 (n * 1000000000) := by
    intro s b hs now rfc n hat
    have hne : hGet hs "Retry-After" ≠ "" := by
      intro h
      rw [h] at hat
      exact Option.noConfusion hat
    rw [ParseHubSpotError_retryAfter]
    simp only [parseRetryAfterNs]
    rw [if_neg hne, hat]
  have hdate : ∀ (s : Int) (b : BodyBytes) (hs : Headers) (now : Int)
      (rfc : String → Option Int) (t : Int),
      hGet hs "Retry-After" ≠ "" →
      atoi (hGet hs "Retry-After") = none →
      rfc (hGet hs "Retry-After") = some t →
      (ParseHubSpotError s b hs now rfc).retryAfter = satSub64 (t - now) := by
    intro s b hs now rfc t hne hat hrfc
    rw [ParseHubSpotError_retryAfter]
    simp only [parseRetryAfterNs]
    rw [if_neg hne, hat, hrfc]
  refine ⟨hnum, ?_, hdate, ?_⟩
  · intro s b hs now rfc n hat h1 h2
    rw [hnum s b hs now rfc n hat]
    exact wrap64_eq_of_range (n * 1000000000) h1 h2
  · intro s b hs now rfc t hne hat hrfc h1 h2
    rw [hdate s b hs now rfc t hne hat hrfc]
    exact satSub64_eq_of_range (t - now) h1 h2

/-- Witness for retry_after_hint_parsing: the numeric header "60" yields a
60-second hint exactly. -/
theorem retry_after_hint_parsing_witness :
    (ParseHubSpotError 429 (.undecodable "") [("Retry-After", "60")] 0 rfcNone).retryAfter =
      60 * 1000000000 :=
  retry_after_hint_parsing.2.1 429 (.undecodable "") [("Retry-After", "60")] 0 rfcNone 60
    (by decide) (by decide) (by decide)

theorem httpMiddleware_counters (now : Int) (rfc : String → Option Int)
    (req : Request) (st : SimState) :
    ((httpMiddleware now rfc) req st).1.dailyChecks = st.dailyChecks ∧
    ((httpMiddleware now rfc) req st).1.tokenWaits = st.tokenWaits ∧
    ((httpMiddleware now rfc) req st).1.limiter = st.limiter := by
  unfold httpMiddleware
  cases hscr : st.script <;> simp [hscr]

theorem retryLoop_counters (now : Int) (rfc : String → Option Int) (req : Request) :
    ∀ (fuel : Nat) (attempt : Int) (lastResp : Option Response) (lastErr : Option GoError)
      (st : SimState),
    (retryLoop (httpMiddleware now rfc) req fuel attempt lastResp lastErr st).1.dailyChecks = st.dailyChecks ∧
    (retryLoop (httpMiddleware now rfc) req fuel attempt lastResp lastErr st).1.tokenWaits = st.tokenWaits ∧
    (retryLoop (httpMiddleware now rfc) req fuel attempt lastResp lastErr st).1.limiter = st.limiter := by
  intro fuel
  induction fuel with
  | zero => intro attempt lastResp lastErr st; exact ⟨rfl, rfl, rfl⟩
  | succ n ih =>
    intro attempt lastResp lastErr st
    obtain ⟨h1, h2, h3⟩ := httpMiddleware_counters now rfc { req with retryCount := attempt } st
    rcases hnext : (httpMiddleware now rfc) { req with retryCount := attempt } st with ⟨st1, resp, err⟩
    rw [hnext] at h1 h2 h3
    simp only [retryLoop, hnext]
    cases err with
    | none => exact ⟨h1, h2, h3⟩
    | some ge =>
      cases ge with
      | generic m => exact ⟨h1, h2, h3⟩
      | hs e =>
        by_cases hr : e.isRetryable
        · simp only [hr, if_true]
          obtain ⟨g1, g2, g3⟩ := ih (attempt + 1) resp (some (GoError.hs e)) st1
          exact ⟨g1.trans h1, g2.trans h2, g3.trans h3⟩
        · simp only [hr]
          exact ⟨h1, h2, h3⟩

theorem wrapRetry_counters (cfg : Config) (now : Int) (rfc : String → Option Int)
    (req : Request) (st : SimState) :
    ((wrapRetryMiddleware cfg (httpMiddleware now rfc)) req st).1.dailyChecks = st.dailyChecks ∧
    ((wrapRetryMiddleware cfg (httpMiddleware now rfc)) req st).1.tokenWaits = st.tokenWaits ∧
    ((wrapRetryMiddleware cfg (httpMiddleware now rfc)) req st).1.limiter = st.limiter := by
  unfold wrapRetryMiddleware
  by_cases he : cfg.retry.enabled
  · simp only [he, if_true]
    exact retryLoop_counters now rfc req cfg.retry.maxAttempts.toNat 0 none none st
  · rw [if_neg he]
    exact httpMiddleware_counters now rfc req st

theorem rateLimit_admits_counters (cfg : Config) (next : SimHandler) (req : Request)
    (st : SimState)
    (hRL : cfg.rateLimit.enabled = true)
    (hRem : 0 < st.limiter.dailyRemaining)
    (hp1 : ∀ (r : Request) (s : SimState), (next r s).1.dailyChecks = s.dailyChecks)
    (hp2 : ∀ (r : Request) (s : SimState), (next r s).1.tokenWaits = s.tokenWaits) :
    ((wrapRateLimitMiddleware cfg next) req st).1.dailyChecks = st.dailyChecks + 1 ∧
    ((wrapRateLimitMiddleware cfg next) req st).1.tokenWaits = st.tokenWaits + 1 := by
  have hcd : CheckDailyLimit st.limiter = true := by
    simp [CheckDailyLimit]
    omega
  unfold wrapRateLimitMiddleware
  simp only [hRL, if_true, hcd]
  rcases hnext : next req { st with dailyChecks := st.dailyChecks + 1,
                                    tokenWaits := st.tokenWaits + 1 } with ⟨st1, resp, err⟩
  have p1 := hp1 req { st with dailyChecks := st.dailyChecks + 1,
                               tokenWaits := st.tokenWaits + 1 }
  have p2 := hp2 req { st with dailyChecks := st.dailyChecks + 1,
                               tokenWaits := st.tokenWaits + 1 }
  rw [hnext] at p1 p2
  cases resp <;> exact ⟨p1, p2⟩

theorem chain_rejects_of_nonpos (cfg : Config) (now : Int) (rfc : String → Option Int)
    (req : Request) (st : SimState)
    (hEn : cfg.rateLimit.enabled = true)
    (hRem : st.limiter.dailyRemaining ≤ 0) :
    buildChain cfg now rfc req st =
      ({ st with dailyChecks := st.dailyChecks + 1 },
       (none, some (GoError.hs dailyLimitError))) := by
  have hcd : CheckDailyLimit st.limiter = false := by
    simp [CheckDailyLimit]
    omega
  unfold buildChain wrapAuthMiddleware wrapRateLimitMiddleware
  simp [hEn, hcd]

/-- C1 counterexample: with the default configuration (rate limiting and
retry both enabled, max-attempts 3) and a network script of two retryable
500s followed by a 200, one pipeline call makes three transport attempts
but performs only one daily-gate check and one interval-token acquisition
— strictly fewer admission checks than attempts, so not every individual
attempt is admission-controlled.  The chain wraps retry inside the rate
limiter, so admission runs once per call, before the first attempt only. -/
theorem admission_not_per_attempt_counterexample :
    (buildChain NewConfig 0 rfcNone {}
      { limiter := NewRateLimiter 100,
        script := [err500Outcome, err500Outcome, ok200Outcome] }).1.transportCalls = 3 ∧
    (buildChain NewConfig 0 rfcNone {}
      { limiter := NewRateLimiter 100,
        script := [err500Outcome, err500Outcome, ok200Outcome] }).1.dailyChecks = 1 ∧
    (buildChain NewConfig 0 rfcNone {}
      { limiter := NewRateLimiter 100,
        script := [err500Outcome, err500Outcome, ok200Outcome] }).1.tokenWaits = 1 ∧
    (buildChain NewConfig 0 rfcNone {}
      { limiter := NewRateLimiter 100,
        script := [err500Outcome, err500Outcome, ok200Outcome] }).1.dailyChecks <
      (buildChain NewConfig 0 rfcNone {}
        { limiter := NewRateLimiter 100,
          script := [err500Outcome, err500Outcome, ok200Outcome] }).1.transportCalls := by
  decide

/-- C1 amended: with rate limiting and retry enabled and daily quota
available, a pipeline call performs exactly one daily-gate check and one
interval-token acquisition — before the retry loop — regardless of how
many transport attempts the retry loop then makes; retry attempts do not
re-pass admission because the rate-limit middleware wraps the retry
middleware, not the other way round. -/
theorem admission_gates_call_not_each_attempt (cfg : Config) (now : Int)
    (rfc : String → Option Int) (req : Request) (st : SimState)
    (hRL : cfg.rateLimit.enabled = true) (hRT : cfg.retry.enabled = true)
    (hRem : 0 < st.limiter.dailyRemaining) :
    (buildChain cfg now rfc req st).1.dailyChecks = st.dailyChecks + 1 ∧
    (buildChain cfg now rfc req st).1.tokenWaits = st.tokenWaits + 1 := by
  unfold buildChain wrapAuthMiddleware
  exact rateLimit_admits_counters cfg _ _ st hRL hRem
    (fun r s => (wrapRetry_counters cfg now rfc r s).1)
    (fun r s => (wrapRetry_counters cfg now rfc r s).2.1)

/-- An idle starting state with full daily quota. -/
def stIdle : SimState := { limiter := NewRateLimiter 100 }

/-- Witness for admission_gates_call_not_each_attempt under the default
configuration. -/
theorem admission_gates_call_not_each_attempt_witness :
    (buildChain NewConfig 0 rfcNone {} stIdle).1.dailyChecks = stIdle.dailyChecks + 1 ∧
    (buildChain NewConfig 0 rfcNone {} stIdle).1.tokenWaits = stIdle.tokenWaits + 1 :=
  admission_gates_call_not_each_attempt NewConfig 0 rfcNone {} stIdle rfl rfl (by decide)

/-- C3: with rate limiting enabled and daily-remaining ≤ 0, the pipeline
returns a nil Response together with the synthetic non-retryable 429
error tagged "DAILY", and the transport handler is invoked zero times. -/
theorem daily_gate_preflight_rejection (cfg : Config) (now : Int)
    (rfc : String → Option Int) (req : Request) (st : SimState)
    (hEn : cfg.rateLimit.enabled = true)
    (hRem : st.limiter.dailyRemaining ≤ 0) :
    (buildChain cfg now rfc req st).2.1 = none ∧
    (buildChain cfg now rfc req st).2.2 = some (GoError.hs dailyLimitError) ∧
    dailyLimitError.status = 429 ∧
    dailyLimitError.isRetryable = false ∧
    dailyLimitError.policyName = "DAILY" ∧
    (buildChain cfg now rfc req st).1.transportCalls = st.transportCalls := by
  have h := chain_rejects_of_nonpos cfg now rfc req st hEn hRem
  rw [h]
  exact ⟨rfl, rfl, rfl, rfl, rfl, rfl⟩

/-- A starting state whose daily quota is exhausted. -/
def stDrained : SimState := { limiter := { NewRateLimiter 100 with dailyRemaining := 0 } }

/-- Witness for daily_gate_preflight_rejection at a drained limiter. -/
theorem daily_gate_preflight_rejection_witness :
    (buildChain NewConfig 0 rfcNone {} stDrained).2.1 = none ∧
    (buildChain NewConfig 0 rfcNone {} stDrained).2.2 = some (GoError.hs dailyLimitError) ∧
    dailyLimitError.status = 429 ∧
    dailyLimitError.isRetryable = false ∧
    dailyLimitError.policyName = "DAILY" ∧
    (buildChain NewConfig 0 rfcNone {} stDrained).1.transportCalls = stDrained.transportCalls :=
  daily_gate_preflight_rejection NewConfig 0 rfcNone {} stDrained rfl (by decide)

/-- C8: for every completed HTTP round trip the transport attaches a
classified error to the Response exactly when the status is at least 400;
the attached error's status equals the HTTP status; below 400 both the
attached error and the returned error are nil, and at or above 400 the
returned error is the attached classified error. -/
theorem response_error_invariant (now : Int) (rfc : String → Option Int)
    (status : Int) (body : BodyBytes) (hs : Headers) :
    ∃ resp, (httpRoundTrip now rfc (WireOutcome.httpResult status body hs)).1 = some resp ∧
      ((resp.hubSpotError ≠ none) ↔ 400 ≤ status) ∧
      (∀ e, resp.hubSpotError = some e → e.status = status) ∧
      (status < 400 → resp.hubSpotError = none ∧
        (httpRoundTrip now rfc (WireOutcome.httpResult status body hs)).2 = none) ∧
      (400 ≤ status →
        (httpRoundTrip now rfc (WireOutcome.httpResult status body hs)).2 =
          some (GoError.hs (ParseHubSpotError status body hs now rfc))) := by
  simp only [httpRoundTrip]
  by_cases h : status ≥ 400
  · rw [if_pos h]
    refine ⟨_, rfl, ⟨fun _ => h, fun _ => by simp⟩, ?_, ?_, fun _ => rfl⟩
    · intro e he
      have h2 := Option.some.inj he
      rw [← h2]
      exact ParseHubSpotError_status status body hs now rfc
    · intro hlt
      exact absurd h (by omega)
  · rw [if_neg h]
    refine ⟨_, rfl, ⟨fun hne => absurd rfl hne, fun hle => absurd hle h⟩, ?_,
      fun _ => ⟨rfl, rfl⟩, fun hle => absurd hle h⟩
    intro e he
    exact Option.noConfusion he

/-- Witness for response_error_invariant: a 404 round trip returns its
classified error. -/
theorem response_error_invariant_witness :
    (httpRoundTrip 0 rfcNone (WireOutcome.httpResult 404 (.undecodable "") [])).2 =
      some (GoError.hs (ParseHubSpotError 404 (.undecodable "") [] 0 rfcNone)) := by
  obtain ⟨resp, h1, h2, h3, h4, h5⟩ := response_error_invariant 0 rfcNone 404 (.undecodable "") []
  exact h5 (by decide)

/-- C9: with retry enabled and max-attempts 3, a handler failing twice
with a retryable 500 and then succeeding is invoked exactly 3 times and
the call succeeds with the 200 response; a handler failing with a
non-retryable 400 is invoked exactly once and the call returns that
classified error. -/
theorem retry_loop_attempt_counts :
    ((wrapRetryMiddleware NewConfig (httpMiddleware 0 rfcNone) {}
        { limiter := NewRateLimiter 100,
          script := [err500Outcome, err500Outcome, ok200Outcome] }).1.transportCalls = 3 ∧
     (wrapRetryMiddleware NewConfig (httpMiddleware 0 rfcNone) {}
        { limiter := NewRateLimiter 100,
          script := [err500Outcome, err500Outcome, ok200Outcome] }).2.2 = none ∧
     ((wrapRetryMiddleware NewConfig (httpMiddleware 0 rfcNone) {}
        { limiter := NewRateLimiter 100,
          script := [err500Outcome, err500Outcome, ok200Outcome] }).2.1.map
          (fun p => p.statusCode)) = some 200 ∧
     (ParseHubSpotError 500 body500 [] 0 rfcNone).isRetryable = true) ∧
    ((wrapRetryMiddleware NewConfig (httpMiddleware 0 rfcNone) {}
        { limiter := NewRateLimiter 100, script := [err400Outcome] }).1.transportCalls = 1 ∧
     (wrapRetryMiddleware NewConfig (httpMiddleware 0 rfcNone) {}
        { limiter := NewRateLimiter 100, script := [err400Outcome] }).2.2 =
       some (GoError.hs (ParseHubSpotError 400 body400 [] 0 rfcNone)) ∧
     (ParseHubSpotError 400 body400 [] 0 rfcNone).isRetryable = false) := by
  decide

theorem extract_dailyRemaining_absent (hs : Headers)
    (h : hGet hs "X-HubSpot-RateLimit-Daily-Remaining" = "") :
    (ExtractRateLimitInfo hs).dailyRemaining = 0 := by
  have heq : (ExtractRateLimitInfo hs).dailyRemaining =
      parseHeaderInt hs "X-HubSpot-RateLimit-Daily-Remaining" 0 := rfl
  rw [heq]
  simp [parseHeaderInt, h]

theorem retry_single_success (cfg : Config) (now : Int) (rfc : String → Option Int)
    (req : Request) (st : SimState) (status : Int) (body : BodyBytes) (hs : Headers)
    (hRT : cfg.retry.enabled = true)
    (hMA : 0 < cfg.retry.maxAttempts)
    (hscr : st.script = [WireOutcome.httpResult status body hs])
    (hlt : status < 400) :
    wrapRetryMiddleware cfg (httpMiddleware now rfc) req st =
      ({ st with script := [], transportCalls := st.transportCalls + 1 },
       (some { NewResponse status body hs with rateLimit := ExtractRateLimitInfo hs }, none)) := by
  obtain ⟨k, hk⟩ : ∃ k, cfg.retry.maxAttempts.toNat = k + 1 :=
    ⟨cfg.retry.maxAttempts.toNat - 1, by omega⟩
  unfold wrapRetryMiddleware
  simp only [hRT, if_true, hk]
  simp only [retryLoop, httpMiddleware, hscr]
  simp only [httpRoundTrip]
  rw [if_neg (by omega : ¬ (status ≥ 400))]

theorem rlchain_single_success (cfg : Config) (now : Int) (rfc : String → Option Int)
    (req : Request) (st : SimState) (status : Int) (body : BodyBytes) (hs : Headers)
    (hEn : cfg.rateLimit.enabled = true)
    (hRT : cfg.retry.enabled = true)
    (hMA : 0 < cfg.retry.maxAttempts)
    (hRem : 0 < st.limiter.dailyRemaining)
    (hscr : st.script = [WireOutcome.httpResult status body hs])
    (hlt : status < 400) :
    (wrapRateLimitMiddleware cfg (wrapRetryMiddleware cfg (httpMiddleware now rfc))) req st =
      ({ st with limiter := UpdateFromResponse st.limiter
                   { NewResponse status body hs with rateLimit := ExtractRateLimitInfo hs },
                 script := [], transportCalls := st.transportCalls + 1,
                 dailyChecks := st.dailyChecks + 1, tokenWaits := st.tokenWaits + 1 },
       (some { NewResponse status body hs with rateLimit := ExtractRateLimitInfo hs }, none)) := by
  have hcd : CheckDailyLimit st.limiter = true := by
    simp [CheckDailyLimit]
    omega
  unfold wrapRateLimitMiddleware
  simp only [hEn, if_true, hcd]
  rw [retry_single_success cfg now rfc req
        { st with dailyChecks := st.dailyChecks + 1, tokenWaits := st.tokenWaits + 1 }
        status body hs hRT hMA hscr hlt]

/-- Headers carrying only a daily-remaining value of 7, and a script where
a completed 500 round trip with those headers is followed by a network
failure. -/
def hdrDaily7 : Headers := [("X-HubSpot-RateLimit-Daily-Remaining", "7")]

def err500Daily7 : WireOutcome := .httpResult 500 body500 hdrDaily7

def netErrOutcome : WireOutcome := .netError "connection reset"

/-- C10 counterexample: the first round trip completes (a 500 whose
headers carry daily-remaining 7, extracted as 7), the retryable error
sends the loop into a second attempt that fails at the network level, and
the retry middleware returns a nil response — so the limiter is never
updated: after the call it still holds its initial 250000, not 7.  A
completed round trip therefore does not unconditionally overwrite the
limiter; only the response returned to the rate-limit middleware does. -/
theorem intermediate_roundtrip_feedback_counterexample :
    (ExtractRateLimitInfo hdrDaily7).dailyRemaining = 7 ∧
    (buildChain NewConfig 0 rfcNone {}
      { limiter := NewRateLimiter 100,
        script := [err500Daily7, netErrOutcome] }).1.transportCalls = 2 ∧
    (buildChain NewConfig 0 rfcNone {}
      { limiter := NewRateLimiter 100,
        script := [err500Daily7, netErrOutcome] }).1.limiter.dailyRemaining = 250000 ∧
    (buildChain NewConfig 0 rfcNone {}
      { limiter := NewRateLimiter 100,
        script := [err500Daily7, netErrOutcome] }).1.limiter.dailyRemaining ≠ 7 := by
  decide

/-- C10 amended: UpdateFromResponse always overwrites both daily fields
with the response's extracted values; a header set lacking the
daily-remaining header extracts the default 0; and for a pipeline call
whose (final) response lacks that header, the limiter's daily-remaining
becomes 0 and every subsequent call is rejected pre-flight with the
synthetic daily-limit error and no transport invocation.  The overwrite
applies to the response the rate-limit middleware receives back — the
final response of the retry loop — not to every intermediate round trip. -/
theorem limiter_feedback_final_response :
    (∀ (rl : RateLimiter) (resp : Response),
      (UpdateFromResponse rl resp).dailyRemaining = resp.rateLimit.dailyRemaining ∧
      (UpdateFromResponse rl resp).dailyLimit = resp.rateLimit.dailyLimit) ∧
    (∀ hs : Headers, hGet hs "X-HubSpot-RateLimit-Daily-Remaining" = "" →
      (ExtractRateLimitInfo hs).dailyRemaining = 0) ∧
    (∀ (cfg : Config) (now : Int) (rfc : String → Option Int) (req req2 : Request)
      (st : SimState) (status : Int) (body : BodyBytes) (hs : Headers)
      (script2 : List WireOutcome),
      cfg.rateLimit.enabled = true → cfg.retry.enabled = true →
      0 < cfg.retry.maxAttempts → 0 < st.limiter.dailyRemaining →
      st.script = [WireOutcome.httpResult status body hs] → status < 400 →
      hGet hs "X-HubSpot-RateLimit-Daily-Remaining" = "" →
      (buildChain cfg now rfc req st).1.limiter.dailyRemaining = 0 ∧
      (buildChain cfg now rfc req2
          { (buildChain cfg now rfc req st).1 with script := script2 }).2.2 =
        some (GoError.hs dailyLimitError) ∧
      (buildChain cfg now rfc req2
          { (buildChain cfg now rfc req st).1 with script := script2 }).1.transportCalls =
        (buildChain cfg now rfc req st).1.transportCalls) := by
  refine ⟨fun rl resp => ⟨rfl, rfl⟩, fun hs h => extract_dailyRemaining_absent hs h, ?_⟩
  intro cfg now rfc req req2 st status body hs script2 hEn hRT hMA hRem hscr hlt habs
  have hbc : buildChain cfg now rfc req st =
      ({ st with limiter := UpdateFromResponse st.limiter
                   { NewResponse status body hs with rateLimit := ExtractRateLimitInfo hs },
                 script := [], transportCalls := st.transportCalls + 1,
                 dailyChecks := st.dailyChecks + 1, tokenWaits := st.tokenWaits + 1 },
       (some { NewResponse status body hs with rateLimit := ExtractRateLimitInfo hs }, none)) :=
    rlchain_single_success cfg now rfc _ st status body hs hEn hRT hMA hRem hscr hlt
  have hzero : (buildChain cfg now rfc req st).1.limiter.dailyRemaining = 0 := by
    rw [hbc]
    show (UpdateFromResponse st.limiter _).dailyRemaining = 0
    rw [show ∀ (rl : RateLimiter) (r : Response),
          (UpdateFromResponse rl r).dailyRemaining = r.rateLimit.dailyRemaining
        from fun rl r => rfl]
    exact extract_dailyRemaining_absent hs habs
  have hrej := chain_rejects_of_nonpos cfg now rfc req2
    { (buildChain cfg now rfc req st).1 with script := script2 } hEn (by simp [hzero])
  refine ⟨hzero, ?_, ?_⟩
  · rw [hrej]
  · rw [hrej]

/-- A starting state with full quota and one scripted successful round
trip that carries no rate-limit headers. -/
def stOne : SimState := { limiter := NewRateLimiter 100, script := [ok200Outcome] }

/-- Witness for limiter_feedback_final_response: one header-less 200
drives the limiter to 0 and the next call is rejected without reaching
the transport. -/
theorem limiter_feedback_final_response_witness :
    (buildChain NewConfig 0 rfcNone {} stOne).1.limiter.dailyRemaining = 0 ∧
    (buildChain NewConfig 0 rfcNone {}
        { (buildChain NewConfig 0 rfcNone {} stOne).1 with script := [] }).2.2 =
      some (GoError.hs dailyLimitError) ∧
    (buildChain NewConfig 0 rfcNone {}
        { (buildChain NewConfig 0 rfcNone {} stOne).1 with script := [] }).1.transportCalls =
      (buildChain NewConfig 0 rfcNone {} stOne).1.transportCalls :=
  limiter_feedback_final_response.2.2 NewConfig 0 rfcNone {} {} stOne 200 (.undecodable "ok")
    [] [] rfl rfl (by decide) (by decide) rfl (by decide) rfl

end HubSpotSDK
